import Mathlib

/-!
Verification development for the request-routing and partition-management
core of `camlistored` (src/server/go/camlistored/camlistored.go).

Strings are embedded as `List Char`; Go byte indices become character
indices (all constants involved are ASCII, so the two agree).  `Option` is
used for fallible operations: `none` stands for the `InvalidCamliPath`
error in the parser, for `log.Fatalf` termination in startup code, and for
`panic` in the index handler.
-/

namespace Camlistored

/-- The constant camliPrefix of the source, "/camli/" (line 61). -/
def camliMarker : List Char := "/camli/".toList

/-- The constant partitionPrefix of the source, "/partition-" (line 62). -/
def partitionToken : List Char := "/partition-".toList

/-- Go `strings.Index needle first-occurrence search: the index of the first
occurrence of `needle` in the list, or `none` where Go returns -1. -/
def goIndex (needle : List Char) : List Char → Option Nat
  | [] => if needle.isPrefixOf ([] : List Char) then some 0 else none
  | c :: t =>
    if needle.isPrefixOf (c :: t) then some 0
    else (goIndex needle t).map (· + 1)

/-- Go `strings.Split s "," -1`: full split on the comma separator, as used
by setupMirrorPartitions (line 204). -/
def goSplitComma : List Char → List (List Char)
  | [] => [[]]
  | c :: t =>
    if c = ',' then [] :: goSplitComma t
    else
      match goSplitComma t with
      | [] => [[c]]
      | h :: r => (c :: h) :: r

/-- Modelled from the spec: `isValidPartitionName` is called at line 84 but
its definition is not among the provided sources.  Spec section 3: partition
names other than the main one are "non-empty, and pass a validity predicate
excluding the partition-prefix marker and slash characters". -/
def isValidPartitionName (name : List Char) : Bool :=
  decide (name ≠ []) && !(name.contains '/')

/-- The partitionConfig struct.  Its declaration is outside the provided
sources; the fields and their order follow the positional literal at line 67
and the named literals at lines 121-127 and 208: name, writable, readable,
queue, mirrors, urlbase.  It is an inductive (not a structure) because the
mirrors field nests the type in a list. -/
inductive PartitionConfig where
  | mk (name : List Char) (writable : Bool) (readable : Bool) (queue : Bool)
      (mirrors : List PartitionConfig) (urlbase : List Char)

def PartitionConfig.name : PartitionConfig → List Char
  | .mk n _ _ _ _ _ => n

def PartitionConfig.writable : PartitionConfig → Bool
  | .mk _ w _ _ _ _ => w

def PartitionConfig.readable : PartitionConfig → Bool
  | .mk _ _ r _ _ _ => r

def PartitionConfig.queue : PartitionConfig → Bool
  | .mk _ _ _ q _ _ => q

def PartitionConfig.mirrors : PartitionConfig → List PartitionConfig
  | .mk _ _ _ _ m _ => m

def PartitionConfig.urlbase : PartitionConfig → List Char
  | .mk _ _ _ _ _ u => u

/-- Go `mainPartition.mirrors = append(mainPartition.mirrors, part)`
(line 210): every other field is kept. -/
def PartitionConfig.addMirror (p m : PartitionConfig) : PartitionConfig :=
  .mk p.name p.writable p.readable p.queue (p.mirrors ++ [m]) p.urlbase

/-- The initial value of the global mainPartition (line 67):
`{"", true, true, false, nil, "http://localhost"}`. -/
def mainPartitionInit : PartitionConfig :=
  .mk [] true true false [] ("http://localhost".toList)

/-- parseCamliPath (lines 69-89).  `none` is the InvalidCamliPath error;
`some (partitionName, action)` is the success triple with nil error. -/
def parseCamliPath (path : List Char) : Option (List Char × List Char) :=
  match goIndex camliMarker path with
  | none => none
  | some camIdx =>
    let action := path.drop (camIdx + camliMarker.length)
    if camIdx = 0 then
      some ([], action)
    else if partitionToken.isPrefixOf path = false then
      none
    else
      let partitionName :=
        (path.drop partitionToken.length).take (camIdx - partitionToken.length)
      if isValidPartitionName partitionName = false then none
      else some (partitionName, action)

/-- A value stored in queuePartitionMap.  Go stores pointers: the entry made
at line 200 aliases the global mainPartition, so later mutations of
mainPartition are seen through the map.  `mainSlot` models that pointer;
`direct` models a pointer shared with nobody else. -/
inductive PartSlot where
  | mainSlot
  | direct (p : PartitionConfig)

/-- The mutable package-level state the router reads: the global
queuePartitionMap (line 197) and the global mainPartition (line 67). -/
structure ServerState where
  queuePartitionMap : List (List Char × PartSlot)
  mainPart : PartitionConfig

/-- Go map indexing `m[k]`, with the cons-overwrite insertion used below. -/
def mapLookup (m : List (List Char × PartSlot)) (k : List Char) : Option PartSlot :=
  match m with
  | [] => none
  | (k2, v) :: t => if k = k2 then some v else mapLookup t k

/-- Dereference a stored map value against the current state. -/
def resolveSlot (st : ServerState) : PartSlot → PartitionConfig
  | PartSlot.mainSlot => st.mainPart
  | PartSlot.direct p => p

/-- The initial package-level state: empty queuePartitionMap and the
initializer of mainPartition. -/
def initState : ServerState :=
  { queuePartitionMap := [], mainPart := mainPartitionInit }

/-- The loop body of setupMirrorPartitions (lines 204-211).  `none` models
`log.Fatalf("Duplicate partition in --queue-partitions")`.  Note that the
loop appends the new partition to mainPartition.mirrors but never inserts
it into queuePartitionMap, exactly as the source does. -/
def setupMirrorLoop (names : List (List Char)) (st : ServerState) : Option ServerState :=
  match names with
  | [] => some st
  | n :: rest =>
    match mapLookup st.queuePartitionMap n with
    | some _ => none
    | none =>
      let part : PartitionConfig :=
        .mk n false true true [] (st.mainPart.urlbase ++ partitionToken ++ n)
      setupMirrorLoop rest { st with mainPart := st.mainPart.addMirror part }

/-- setupMirrorPartitions (lines 199-212), taking the value of the
--queue-partitions flag.  First entry `queuePartitionMap[""] = mainPartition`,
then early return on an empty flag, then the loop over the comma-split. -/
def setupMirrorPartitions (flagQueuePartitions : List Char) (st : ServerState) :
    Option ServerState :=
  let st1 : ServerState :=
    { st with queuePartitionMap := ([], PartSlot.mainSlot) :: st.queuePartitionMap }
  if flagQueuePartitions = [] then some st1
  else setupMirrorLoop (goSplitComma flagQueuePartitions) st1

/-- The handler selected by the router for a request, abstracted over the
storage backend type σ.  `unsupported` is unsupportedHandler (line 99);
`unconfigured` is the "Unconfigured partition." BadRequestError (line 113);
`getBlob` is handlers.CreateGetHandler, the only unauthenticated one
(line 160); `authRequired op` is auth.RequireAuth wrapped around the
backend operation op. -/
inductive StorageOp (σ : Type) where
  | enumerate (storage : σ) (partition : PartitionConfig)
  | statOp (storage : σ) (partition : PartitionConfig)
  | upload (storage : σ) (partition : PartitionConfig)
  | remove (storage : σ) (partition : PartitionConfig)
  | nonStandardPut (storage : σ) (partition : PartitionConfig)

inductive CamliHandler (σ : Type) where
  | unsupported
  | unconfigured
  | getBlob (storage : σ)
  | authRequired (op : StorageOp σ)

/-- Whether the selected handler reaches a backend operation at all:
unsupported and unconfigured write a client error and touch no backend. -/
def CamliHandler.invokesBackend : CamliHandler σ → Bool
  | .unsupported => false
  | .unconfigured => false
  | .getBlob _ => true
  | .authRequired _ => true

/-- handleCamliUsingStorage (lines 147-176): the method+action dispatch
table, starting from handler := unsupportedHandler. -/
def handleCamliUsingStorage (σ : Type) (method action : List Char)
    (partition : PartitionConfig) (storage : σ) : CamliHandler σ :=
  if method = "GET".toList then
    if action = "enumerate-blobs".toList then
      .authRequired (.enumerate storage partition)
    else if action = "stat".toList then
      .authRequired (.statOp storage partition)
    else
      .getBlob storage
  else if method = "POST".toList then
    if action = "stat".toList then
      .authRequired (.statOp storage partition)
    else if action = "upload".toList then
      .authRequired (.upload storage partition)
    else if action = "remove".toList then
      .authRequired (.remove storage partition)
    else
      .unsupported
  else if method = "PUT".toList then
    .authRequired (.nonStandardPut storage partition)
  else
    .unsupported

/-- handleCamli (lines 103-117): parse the path, resolve the partition in
queuePartitionMap, dispatch. -/
def handleCamli (σ : Type) (st : ServerState) (storage : σ)
    (method path : List Char) : CamliHandler σ :=
  match parseCamliPath path with
  | none => CamliHandler.unsupported
  | some (partName, action) =>
    match mapLookup st.queuePartitionMap partName with
    | none => CamliHandler.unconfigured
    | some slot =>
      handleCamliUsingStorage σ method action (resolveSlot st slot) storage

/-- The decision of pickPartitionHandlerMaybe (lines 91-97): either claim
the request for handleCamli or decline the interception. -/
inductive PreRoute where
  | interceptCamli
  | decline
deriving DecidableEq

def pickPartitionHandlerMaybe (path : List Char) : PreRoute :=
  if partitionToken.isPrefixOf path then PreRoute.interceptCamli
  else PreRoute.decline

/-- The mount prefix constant of makeIndexHandler (line 120). -/
def indexerMount : List Char := "/indexer".toList

/-- The route pattern the index handler is registered under (line 286). -/
def indexerRoute : List Char := "/indexer/".toList

/-- The synthetic partition built by makeIndexHandler (lines 121-127), whose
urlbase extends the main partition urlbase with the mount prefix. -/
def indexPartition (mainUrlbase : List Char) : PartitionConfig :=
  .mk ("indexer".toList) true false false [] (mainUrlbase ++ indexerMount)

/-- The closure returned by makeIndexHandler (lines 128-144).  `none` models
the `panic("bogus request")` branch; otherwise the mount prefix is stripped,
the remainder parsed, and dispatch runs against the synthetic partition and
the mounted storage, ignoring any parsed partition name. -/
def makeIndexHandler (σ : Type) (mainUrlbase : List Char) (storage : σ)
    (method path : List Char) : Option (CamliHandler σ) :=
  if indexerMount.isPrefixOf path = false then none
  else
    let sub := path.drop indexerMount.length
    match parseCamliPath sub with
    | none => some CamliHandler.unsupported
    | some (_, action) =>
      some (handleCamliUsingStorage σ method action
        (indexPartition mainUrlbase) storage)

/-- Modelled from the spec (section 4.5), for the refinement claim about the
mount adapter: "The adapter strips the mount prefix from the incoming path,
delegates to the same PathGrammar + Dispatcher logic" against its own
synthetic partition, and a stripped path that fails to parse yields the
unsupported-path client error. -/
def indexHandlerSpecModel (σ : Type) (mainUrlbase : List Char) (storage : σ)
    (method path : List Char) : CamliHandler σ :=
  match parseCamliPath (path.drop indexerMount.length) with
  | none => CamliHandler.unsupported
  | some (_, action) =>
    handleCamliUsingStorage σ method action (indexPartition mainUrlbase) storage

/-! Helper lemmas about the Go string primitives. -/

/-- A needle that is a prefix of the haystack is found at index 0. -/
lemma goIndex_eq_zero (needle s : List Char) (h : needle.isPrefixOf s = true) :
    goIndex needle s = some 0 := by
  cases s with
  | nil => unfold goIndex; rw [if_pos h]
  | cons c t => unfold goIndex; rw [if_pos h]

/-- A successful first-occurrence search means the needle occurs in the
haystack. -/
lemma infix_of_goIndex_isSome (needle s : List Char)
    (h : (goIndex needle s).isSome = true) : needle <:+: s := by
  induction s with
  | nil =>
    unfold goIndex at h
    by_cases hp : needle.isPrefixOf ([] : List Char) = true
    · exact List.IsInfix.trans (List.infix_refl needle)
        ((List.isPrefixOf_iff_prefix.mp hp).isInfix)
    · rw [if_neg hp] at h
      simp at h
  | cons c t ih =>
    unfold goIndex at h
    by_cases hp : needle.isPrefixOf (c :: t) = true
    · exact (List.isPrefixOf_iff_prefix.mp hp).isInfix
    · rw [if_neg hp] at h
      cases hg : goIndex needle t with
      | none => rw [hg] at h; simp at h
      | some i =>
        exact (ih (by rw [hg]; rfl)).trans (List.suffix_cons c t).isInfix

/-- An unfolding equation for setupMirrorLoop when the duplicate check
passes: the loop registers nothing in the map and appends one mirror. -/
lemma setupMirrorLoop_cons (n : List Char) (rest : List (List Char)) (st : ServerState)
    (h : mapLookup st.queuePartitionMap n = none) :
    setupMirrorLoop (n :: rest) st =
      setupMirrorLoop rest
        (ServerState.mk st.queuePartitionMap
          (st.mainPart.addMirror
            (PartitionConfig.mk n false true true []
              (st.mainPart.urlbase ++ partitionToken ++ n)))) := by
  conv_lhs => unfold setupMirrorLoop
  rw [h]

/-! The claims. -/

/-- Claim C1: the code slips against the spec here.  Evaluating
setupMirrorPartitions at the duplicate configuration "a,a" from the initial
state: it does NOT terminate fatally (the result is some state, not none),
the duplicate name is appended to the mirrors twice, and the name "a" is
not resolvable in queuePartitionMap afterwards.  Likewise after the
distinct-name configuration "a,b", neither "a" nor "b" is resolvable,
because the loop never inserts the mirror partitions into the map. -/
theorem claim1_duplicate_and_lookup_eval :
    (setupMirrorPartitions ("a,a".toList) initState).isSome = true ∧
    ((setupMirrorPartitions ("a,a".toList) initState).map
      (fun st => st.mainPart.mirrors.map PartitionConfig.name) =
      some [("a".toList), ("a".toList)]) ∧
    ((setupMirrorPartitions ("a,a".toList) initState).map
      (fun st => (mapLookup st.queuePartitionMap ("a".toList)).isSome) =
      some false) ∧
    ((setupMirrorPartitions ("a,b".toList) initState).map
      (fun st => ((mapLookup st.queuePartitionMap ("a".toList)).isSome,
                  (mapLookup st.queuePartitionMap ("b".toList)).isSome)) =
      some (false, false)) :=
  ⟨rfl, rfl, rfl, rfl⟩

/-- Claim C2: the dispatch table of handleCamliUsingStorage.  The six table
rows GET enumerate-blobs, GET stat, POST stat, POST upload, POST remove and
PUT return the corresponding backend handler wrapped in the authentication
decorator; GET with any other action returns the unauthenticated blob-get
handler; every other (method, action) pair returns the unsupported handler. -/
theorem claim2_dispatch_table (σ : Type) (s : σ) (p : PartitionConfig)
    (method action : List Char) :
    (handleCamliUsingStorage σ ("GET".toList) ("enumerate-blobs".toList) p s =
      CamliHandler.authRequired (StorageOp.enumerate s p)) ∧
    (handleCamliUsingStorage σ ("GET".toList) ("stat".toList) p s =
      CamliHandler.authRequired (StorageOp.statOp s p)) ∧
    (handleCamliUsingStorage σ ("POST".toList) ("stat".toList) p s =
      CamliHandler.authRequired (StorageOp.statOp s p)) ∧
    (handleCamliUsingStorage σ ("POST".toList) ("upload".toList) p s =
      CamliHandler.authRequired (StorageOp.upload s p)) ∧
    (handleCamliUsingStorage σ ("POST".toList) ("remove".toList) p s =
      CamliHandler.authRequired (StorageOp.remove s p)) ∧
    (handleCamliUsingStorage σ ("PUT".toList) action p s =
      CamliHandler.authRequired (StorageOp.nonStandardPut s p)) ∧
    (method = "GET".toList → action ≠ ("enumerate-blobs".toList) →
      action ≠ ("stat".toList) →
      handleCamliUsingStorage σ method action p s = CamliHandler.getBlob s) ∧
    (method = "POST".toList → action ≠ ("stat".toList) →
      action ≠ ("upload".toList) → action ≠ ("remove".toList) →
      handleCamliUsingStorage σ method action p s = CamliHandler.unsupported) ∧
    (method ≠ ("GET".toList) → method ≠ ("POST".toList) → method ≠ ("PUT".toList) →
      handleCamliUsingStorage σ method action p s = CamliHandler.unsupported) := by
  refine ⟨rfl, rfl, rfl, rfl, rfl, ?_, ?_, ?_, ?_⟩
  · unfold handleCamliUsingStorage
    rw [if_neg (by decide), if_neg (by decide), if_pos rfl]
  · intro hm h1 h2
    subst hm
    unfold handleCamliUsingStorage
    rw [if_pos rfl, if_neg h1, if_neg h2]
  · intro hm h1 h2 h3
    subst hm
    unfold handleCamliUsingStorage
    rw [if_neg (by decide), if_pos rfl, if_neg h1, if_neg h2, if_neg h3]
  · intro h1 h2 h3
    unfold handleCamliUsingStorage
    rw [if_neg h1, if_neg h2, if_neg h3]

/-- Witness for C2 at the untabulated pair (DELETE, stat). -/
theorem claim2_dispatch_table_witness :
    handleCamliUsingStorage Unit ("DELETE".toList) ("stat".toList)
      mainPartitionInit () = CamliHandler.unsupported := by
  have h := claim2_dispatch_table Unit () mainPartitionInit
    ("DELETE".toList) ("stat".toList)
  exact h.2.2.2.2.2.2.2.2 (by decide) (by decide) (by decide)

/-- Claim C3: when the first occurrence of the marker "/camli/" is at index
idx with 0 < idx, a path not starting with "/partition-" fails with the
InvalidCamliPath error, and otherwise, when the extracted name passes the
validity predicate, parsing returns exactly the substring between the end
of the prefix token and idx as the partition name and the substring after
the marker as the action, with no error. -/
theorem claim3_named_partition_parse (path : List Char) (idx : Nat)
    (h : goIndex camliMarker path = some idx) (hpos : 0 < idx) :
    (partitionToken.isPrefixOf path = false → parseCamliPath path = none) ∧
    (partitionToken.isPrefixOf path = true →
      isValidPartitionName
        ((path.drop partitionToken.length).take (idx - partitionToken.length)) = true →
      parseCamliPath path =
        some ((path.drop partitionToken.length).take (idx - partitionToken.length),
              path.drop (idx + camliMarker.length))) := by
  unfold parseCamliPath
  rw [h]
  constructor
  · intro hp
    simp [Nat.pos_iff_ne_zero.mp hpos, hp]
  · intro hp hv
    simp [Nat.pos_iff_ne_zero.mp hpos, hp, hv]

/-- Witness for C3 at the path "/partition-foo/camli/stat", whose marker
index is 14. -/
theorem claim3_named_partition_parse_witness :
    goIndex camliMarker ("/partition-foo/camli/stat".toList) = some 14 ∧
    parseCamliPath ("/partition-foo/camli/stat".toList) =
      some (("foo".toList), ("stat".toList)) :=
  ⟨by decide,
    (claim3_named_partition_parse ("/partition-foo/camli/stat".toList) 14
      (by decide) (by decide)).2 (by decide) (by decide)⟩

/-- Claim C4: every path starting with the marker "/camli/" (first
occurrence at index 0, regardless of later occurrences) parses to the empty
partition name, the remainder of the path after the marker as the action,
and no error. -/
theorem claim4_main_partition_parse (path : List Char)
    (h : camliMarker.isPrefixOf path = true) :
    parseCamliPath path = some ([], path.drop camliMarker.length) := by
  unfold parseCamliPath
  rw [goIndex_eq_zero camliMarker path h]
  simp

/-- Witness for C4 at "/camli/enumerate-blobs", which even contains no
second marker; a second witness computation inside the conjunction uses a
path with a later marker occurrence. -/
theorem claim4_main_partition_parse_witness :
    camliMarker.isPrefixOf ("/camli/extra/camli/x".toList) = true ∧
    parseCamliPath ("/camli/extra/camli/x".toList) =
      some ([], ("/camli/extra/camli/x".toList).drop camliMarker.length) :=
  ⟨by decide, claim4_main_partition_parse ("/camli/extra/camli/x".toList) (by decide)⟩

/-- Claim C5: a path that does not contain the marker "/camli/" anywhere
fails with the InvalidCamliPath error, regardless of its other content. -/
theorem claim5_marker_absent_fails (path : List Char)
    (h : ¬ camliMarker <:+: path) : parseCamliPath path = none := by
  cases hg : goIndex camliMarker path with
  | none => unfold parseCamliPath; rw [hg]
  | some idx =>
    exact absurd (infix_of_goIndex_isSome camliMarker path (by rw [hg]; rfl)) h

/-- Witness for C5 at "/nonsense". -/
theorem claim5_marker_absent_fails_witness :
    ¬ camliMarker <:+: ("/nonsense".toList) ∧
    parseCamliPath ("/nonsense".toList) = none :=
  ⟨by decide, claim5_marker_absent_fails ("/nonsense".toList) (by decide)⟩

/-- Claim C6: building mirrors from "a,b" appends exactly two mirror
partitions to the main partition mirrors, named "a" and "b", each with
readable true, writable false, queue true, and urlbase equal to the main
partition urlbase extended with "/partition-" plus the name; nothing else
in the state changes except the registration of the main partition under
the empty name. -/
theorem claim6_build_mirrors (st : ServerState)
    (ha : mapLookup st.queuePartitionMap ("a".toList) = none)
    (hb : mapLookup st.queuePartitionMap ("b".toList) = none) :
    setupMirrorPartitions ("a,b".toList) st =
      some ⟨([], PartSlot.mainSlot) :: st.queuePartitionMap,
        PartitionConfig.mk st.mainPart.name st.mainPart.writable st.mainPart.readable
          st.mainPart.queue
          (st.mainPart.mirrors ++
            [ PartitionConfig.mk ("a".toList) false true true []
                (st.mainPart.urlbase ++ partitionToken ++ ("a".toList)),
              PartitionConfig.mk ("b".toList) false true true []
                (st.mainPart.urlbase ++ partitionToken ++ ("b".toList)) ])
          st.mainPart.urlbase⟩ := by
  unfold setupMirrorPartitions
  rw [if_neg (by decide)]
  have hsplit : goSplitComma ("a,b".toList) = [("a".toList), ("b".toList)] := by decide
  rw [hsplit]
  rw [setupMirrorLoop_cons _ _ _ (by
    unfold mapLookup
    rw [if_neg (by decide)]
    exact ha)]
  rw [setupMirrorLoop_cons _ _ _ (by
    unfold mapLookup
    rw [if_neg (by decide)]
    exact hb)]
  unfold setupMirrorLoop
  cases hm : st.mainPart with
  | mk n w r q ms u =>
    simp [PartitionConfig.addMirror, PartitionConfig.name, PartitionConfig.writable,
      PartitionConfig.readable, PartitionConfig.queue, PartitionConfig.mirrors,
      PartitionConfig.urlbase, hm]

/-- Witness for C6 from the initial state. -/
theorem claim6_build_mirrors_witness :
    mapLookup initState.queuePartitionMap ("a".toList) = none ∧
    mapLookup initState.queuePartitionMap ("b".toList) = none ∧
    setupMirrorPartitions ("a,b".toList) initState =
      some ⟨([], PartSlot.mainSlot) :: initState.queuePartitionMap,
        PartitionConfig.mk initState.mainPart.name initState.mainPart.writable
          initState.mainPart.readable initState.mainPart.queue
          (initState.mainPart.mirrors ++
            [ PartitionConfig.mk ("a".toList) false true true []
                (initState.mainPart.urlbase ++ partitionToken ++ ("a".toList)),
              PartitionConfig.mk ("b".toList) false true true []
                (initState.mainPart.urlbase ++ partitionToken ++ ("b".toList)) ])
          initState.mainPart.urlbase⟩ :=
  ⟨rfl, rfl, claim6_build_mirrors initState rfl rfl⟩

/-- Claim C7: for every request path carrying the mount prefix "/indexer",
the mounted handler equals the spec-side adapter (strip the prefix, parse
with the same grammar, dispatch with the same table against the synthetic
indexer partition and the mounted backend); in particular any parsed
partition token is ignored, an unparsable stripped path yields the
unsupported client error, and the synthetic partition is named "indexer"
with writable true, readable false and queue false. -/
theorem claim7_mount_adapter (σ : Type) (s : σ) (u method path : List Char)
    (h : indexerMount.isPrefixOf path = true) :
    makeIndexHandler σ u s method path =
      some (indexHandlerSpecModel σ u s method path) ∧
    (∀ pn action, parseCamliPath (path.drop indexerMount.length) = some (pn, action) →
      makeIndexHandler σ u s method path =
        some (handleCamliUsingStorage σ method action (indexPartition u) s)) ∧
    (parseCamliPath (path.drop indexerMount.length) = none →
      makeIndexHandler σ u s method path = some CamliHandler.unsupported) ∧
    (indexPartition u).name = ("indexer".toList) ∧
    (indexPartition u).writable = true ∧
    (indexPartition u).readable = false ∧
    (indexPartition u).queue = false := by
  refine ⟨?_, ?_, ?_, rfl, rfl, rfl, rfl⟩
  · unfold makeIndexHandler indexHandlerSpecModel
    rw [h]
    rcases hq : parseCamliPath (path.drop indexerMount.length) with _ | ⟨pn, action⟩ <;>
      simp [hq]
  · intro pn action hp
    unfold makeIndexHandler
    rw [h]
    simp [hp]
  · intro hp
    unfold makeIndexHandler
    rw [h]
    simp [hp]

/-- Witness for C7 at a mounted path whose sub-path carries a partition
token, which the adapter ignores. -/
theorem claim7_mount_adapter_witness :
    indexerMount.isPrefixOf ("/indexer/partition-zzz/camli/upload".toList) = true ∧
    makeIndexHandler Unit [] () ("POST".toList)
        ("/indexer/partition-zzz/camli/upload".toList) =
      some (indexHandlerSpecModel Unit [] () ("POST".toList)
        ("/indexer/partition-zzz/camli/upload".toList)) :=
  ⟨by decide,
    (claim7_mount_adapter Unit () [] ("POST".toList)
      ("/indexer/partition-zzz/camli/upload".toList) (by decide)).1⟩

/-- Claim C8: a POST to /partition-unknown/camli/upload with the
syntactically valid name "unknown" absent from the registry selects the
unconfigured-partition client error and invokes no backend operation. -/
theorem claim8_unconfigured_partition (σ : Type) (s : σ) (st : ServerState)
    (h : mapLookup st.queuePartitionMap ("unknown".toList) = none) :
    isValidPartitionName ("unknown".toList) = true ∧
    handleCamli σ st s ("POST".toList) ("/partition-unknown/camli/upload".toList) =
      CamliHandler.unconfigured ∧
    (handleCamli σ st s ("POST".toList)
        ("/partition-unknown/camli/upload".toList)).invokesBackend = false := by
  have hp : parseCamliPath ("/partition-unknown/camli/upload".toList) =
      some (("unknown".toList), ("upload".toList)) := by decide
  have h2 : handleCamli σ st s ("POST".toList)
      ("/partition-unknown/camli/upload".toList) = CamliHandler.unconfigured := by
    unfold handleCamli
    simp only [hp, h]
  refine ⟨by decide, h2, ?_⟩
  rw [h2]
  rfl

/-- Witness for C8 in the initial (empty-registry) state. -/
theorem claim8_unconfigured_partition_witness :
    mapLookup initState.queuePartitionMap ("unknown".toList) = none ∧
    handleCamli Unit initState () ("POST".toList)
      ("/partition-unknown/camli/upload".toList) = CamliHandler.unconfigured :=
  ⟨rfl, (claim8_unconfigured_partition Unit () initState rfl).2.1⟩

/-- Claim C9: the pre-route interceptor claims a request for the camli
handler exactly when the raw path begins with "/partition-", and declines
exactly otherwise. -/
theorem claim9_interceptor (path : List Char) :
    (pickPartitionHandlerMaybe path = PreRoute.interceptCamli ↔
      partitionToken.isPrefixOf path = true) ∧
    (pickPartitionHandlerMaybe path = PreRoute.decline ↔
      partitionToken.isPrefixOf path = false) := by
  unfold pickPartitionHandlerMaybe
  cases h : partitionToken.isPrefixOf path with
  | false => simp
  | true => simp

/-- Claim C10: the handler returned by the indexer mount adapter panics
(returns no response at all, modelled none) exactly on paths lacking the
"/indexer" mount prefix, and every path matching the registered route
pattern "/indexer/" makes the panic branch unreachable. -/
theorem claim10_panic_guard (σ : Type) (s : σ) (u method path : List Char) :
    (makeIndexHandler σ u s method path = none ↔
      indexerMount.isPrefixOf path = false) ∧
    (indexerRoute.isPrefixOf path = true →
      (makeIndexHandler σ u s method path).isSome = true) := by
  have key : ∀ hp : indexerMount.isPrefixOf path = true,
      (makeIndexHandler σ u s method path).isSome = true := by
    intro hp
    unfold makeIndexHandler
    rw [hp]
    rcases hq : parseCamliPath (path.drop indexerMount.length) with _ | ⟨pn, action⟩ <;>
      simp [hq]
  constructor
  · cases h : indexerMount.isPrefixOf path with
    | false =>
      unfold makeIndexHandler
      rw [h]
      simp
    | true =>
      have hs := key h
      constructor
      · intro hnone
        rw [hnone] at hs
        simp at hs
      · intro hfalse
        exact absurd hfalse (by decide)
  · intro hr
    exact key (List.isPrefixOf_iff_prefix.mpr
      (List.IsPrefix.trans (by decide) (List.isPrefixOf_iff_prefix.mp hr)))

/-- Witness for C10 at the route-conforming path "/indexer/camli/stat". -/
theorem claim10_panic_guard_witness :
    indexerRoute.isPrefixOf ("/indexer/camli/stat".toList) = true ∧
    (makeIndexHandler Unit [] () ("GET".toList)
      ("/indexer/camli/stat".toList)).isSome = true :=
  ⟨by decide,
    (claim10_panic_guard Unit () [] ("GET".toList)
      ("/indexer/camli/stat".toList)).2 (by decide)⟩

end Camlistored
